import Mathlib

/-!
Verification of the Herder consensus-participation module
(src/src/herder/Herder.cpp) against its natural-language specification.

The embedding below translates the decision logic of Herder into Lean.
Machine integers become Nat (no arithmetic below approaches the word size),
opaque XDR byte strings are represented by their decode result (an Option,
with none standing for a decode exception), the SHA256 ranking hash and the
signature primitive are collaborators outside the provided source and are
kept as explicit function parameters. Comparing 32-byte digests with the
byte-lexicographic xdr comparison coincides with comparing the matching Nat
values, so hash digests are Nat.
-/

namespace StellarHerder

/-- StellarBallotValue: txSetHash (uint256), closeTime (uint64),
baseFee (uint32). Field widths are immaterial to the properties below. -/
structure StellarBallotValue where
  txSetHash : Nat
  closeTime : Nat
  baseFee : Nat
deriving DecidableEq, Repr

/-- StellarBallot: a ballot value with the signer node id and signature. -/
structure StellarBallot where
  value : StellarBallotValue
  nodeID : Nat
  signature : Nat
deriving DecidableEq, Repr

/-- FBABallot: counter plus an opaque value. The opaque byte string is
embedded by its decode result: some b when xdr_from_opaque succeeds and
none when it throws. -/
structure FBABallot where
  counter : Nat
  value : Option StellarBallot
deriving DecidableEq, Repr

/-- The ranking hash H(slotIndex, ballotCounter, nodeID). In the source this
is SHA256 over the three XDR encodings (crypto collaborator, not part of the
provided source); it is kept abstract as a parameter. -/
abbrev HashFn := Nat → Nat → Nat → Nat

/-- xdr operator< on StellarBallotValue: field-lexicographic comparison in
declaration order (txSetHash, closeTime, baseFee). -/
def valueLt (a b : StellarBallotValue) : Bool :=
  decide (a.txSetHash < b.txSetHash) ||
    (decide (a.txSetHash = b.txSetHash) &&
      (decide (a.closeTime < b.closeTime) ||
        (decide (a.closeTime = b.closeTime) && decide (a.baseFee < b.baseFee))))

/-- Herder::compareValues (Herder.cpp lines 163 to 217). Returns none on the
decode-failure path, which the source marks assert(false). Note that the
source returns -1 in BOTH value-comparison branches. -/
def compareValues (H : HashFn) (slotIndex ballotCounter : Nat)
    (v1 v2 : Option StellarBallot) : Option Int :=
  match v1, v2 with
  | some b1, some b2 =>
    let h1 := H slotIndex ballotCounter b1.nodeID
    let h2 := H slotIndex ballotCounter b2.nodeID
    if h1 < h2 then some (-1)
    else if h2 < h1 then some 1
    else if valueLt b1.value b2.value then some (-1)
    else if valueLt b2.value b1.value then some (-1)
    else some 0
  | _, _ => none

/-- The isKing computation of Herder::validateBallot (Herder.cpp lines 282
to 311): isKing starts true and is cleared for a validator vID whenever
H(slot, counter, proposer) < H(slot, counter, vID). -/
def isKingCalc (H : HashFn) (slotIndex counter proposerID : Nat)
    (validators : List Nat) : Bool :=
  validators.foldl
    (fun isKing vID =>
      if H slotIndex counter proposerID < H slotIndex counter vID then false
      else isKing)
    true

/-- The isTrusted computation of Herder::validateBallot (same loop): set when
the proposer equals a validator of the local quorum set or the local node. -/
def isTrustedCalc (localNodeID proposerID : Nat) (validators : List Nat) : Bool :=
  validators.foldl
    (fun isTrusted vID =>
      if proposerID = vID ∨ proposerID = localNodeID then true else isTrusted)
    false

/-- The sumTimeouts loop of Herder::validateBallot (Herder.cpp lines 246 to
256): iterate i from 0 while i < counter and
timeNow + MAX_TIME_SLIP_SECONDS >= lastTrigger + sum, adding
min(MAX_FBA_TIMEOUT_SECONDS, 2^i) each round. The fuel argument counts the
remaining iterations (counter - i). -/
def sumTimeoutsGo (maxFbaTimeout nowSlip lastTrigger : Nat) :
    Nat → Nat → Nat → Nat
  | 0, _, sum => sum
  | fuel + 1, i, sum =>
    if lastTrigger + sum ≤ nowSlip then
      sumTimeoutsGo maxFbaTimeout nowSlip lastTrigger fuel (i + 1)
        (sum + min maxFbaTimeout (2 ^ i))
    else
      sum

/-- The value of sumTimeouts after the loop in Herder::validateBallot. -/
def sumTimeouts (maxFbaTimeout nowSlip lastTrigger counter : Nat) : Nat :=
  sumTimeoutsGo maxFbaTimeout nowSlip lastTrigger counter 0 0

/-- The counter-growth check of Herder::validateBallot (Herder.cpp line 258):
the ballot passes unless timeNow + MAX_TIME_SLIP_SECONDS is strictly below
lastTrigger + sumTimeouts. -/
def counterGrowthPasses (maxFbaTimeout nowSlip lastTrigger counter : Nat) : Bool :=
  !(decide (nowSlip < lastTrigger + sumTimeouts maxFbaTimeout nowSlip lastTrigger counter))

/-- The Herder state and configuration read by validateBallot. MAX_TIME_SLIP
and MAX_FBA_TIMEOUT are compile-time constants declared in Herder.h, which is
not part of the provided source, so they stay symbolic here. -/
structure HerderEnv where
  timeNow : Nat
  lastTrigger : Nat
  maxTimeSlip : Nat
  maxFbaTimeout : Nat
  desiredBaseFee : Nat
  secretKeyIsZero : Bool
  localNodeID : Nat
  validators : List Nat
deriving DecidableEq, Repr

/-- Outcome of Herder::validateBallot: cb(false), cb(true) immediately, or a
deferred-accept timer armed for the given number of milliseconds whose
handler later invokes cb. -/
inductive BallotValidationOutcome where
  | cbFalse
  | cbTrue
  | deferredTimer (timeoutMs : Nat)
deriving DecidableEq, Repr

/-- Herder::validateBallot (Herder.cpp lines 219 to 360), restricted to the
value of the validation decision. The fee bounds use exact arithmetic:
baseFee < DESIRED_BASE_FEE * 0.5 in doubles is 2 * baseFee < DESIRED_BASE_FEE
on integers, since halving a uint32 is exact in a double. -/
def validateBallot (H : HashFn) (env : HerderEnv) (slotIndex nodeID : Nat)
    (ballot : FBABallot) : BallotValidationOutcome :=
  match ballot.value with
  | none => .cbFalse
  | some b =>
    if env.timeNow + env.maxTimeSlip < b.value.closeTime then .cbFalse
    else if counterGrowthPasses env.maxFbaTimeout (env.timeNow + env.maxTimeSlip)
        env.lastTrigger ballot.counter = false then .cbFalse
    else if 2 * b.value.baseFee < env.desiredBaseFee then .cbFalse
    else if env.desiredBaseFee * 2 < b.value.baseFee then .cbFalse
    else if env.secretKeyIsZero = true ∧ nodeID = env.localNodeID then .cbFalse
    else if isKingCalc H slotIndex ballot.counter b.nodeID env.validators &&
        isTrustedCalc env.localNodeID b.nodeID env.validators then .cbTrue
    else .deferredTimer (1000 * 2 ^ ballot.counter / 2)

/-- Modelled from the spec: PublicKey::verifySig (the crypto collaborator) is
not part of the provided source. Per spec section 4.1, verification checks
the signature against the embedded public key over the canonical bytes of the
value; the signature scheme itself stays abstract as a parameter. -/
def verifyStellarBallot (verifySig : Nat → Nat → StellarBallotValue → Bool)
    (b : StellarBallot) : Bool :=
  verifySig b.nodeID b.signature b.value

/-- The asio completion status delivered to a timer handler. -/
inductive AsioErrorCode where
  | success
  | operationAborted
deriving DecidableEq, Repr

/-- The completion handler Herder::validateBallot installs on the deferred
ballot-acceptance timer (Herder.cpp lines 340 to 344). The result records the
argument the validation callback cb is invoked with, none meaning cb is not
invoked. The source lambda ignores the error code entirely and runs cb(true). -/
def ballotValidationTimerHandler (_errorCode : AsioErrorCode) : Option Bool :=
  some true

/-- What Herder::recvFBAEnvelope does with an envelope: whether it is stashed
in mFutureEnvelopes and whether it is forwarded to FBA receiveEnvelope. -/
structure RecvEnvelopeResult where
  stashedInFutureEnvelopes : Bool
  forwardedToFBA : Bool
deriving DecidableEq, Repr

/-- Herder::recvFBAEnvelope (Herder.cpp lines 647 to 677). The min bound
mirrors the source ternary: (int)ledgerSeq - BRACKET clamped at 0. -/
def recvFBAEnvelope (ledgersToWaitToParticipate lastClosedLedgerSeq
    ledgerValidityBracket slotIndex : Nat) : RecvEnvelopeResult :=
  if ledgersToWaitToParticipate = 0 then
    if lastClosedLedgerSeq + ledgerValidityBracket < slotIndex ∨
        slotIndex < (if lastClosedLedgerSeq < ledgerValidityBracket then 0
          else lastClosedLedgerSeq - ledgerValidityBracket) then
      ⟨false, false⟩
    else if lastClosedLedgerSeq + 1 < slotIndex then
      ⟨true, true⟩
    else
      ⟨false, true⟩
  else
    ⟨false, true⟩

/-- The update Herder::ledgerClosed applies to mLedgersToWaitToParticipate
(Herder.cpp lines 693 to 698): decrement when the counter is positive AND the
application state is NOT SYNCED_STATE. appStateIsSynced records
getState() == SYNCED_STATE. -/
def ledgerClosedWaitCounter (ledgersToWaitToParticipate : Nat)
    (appStateIsSynced : Bool) : Nat :=
  if 0 < ledgersToWaitToParticipate ∧ appStateIsSynced = false then
    ledgersToWaitToParticipate - 1
  else
    ledgersToWaitToParticipate

/-- A transaction as seen by Herder: its full hash, its source account, and
the results of the two collaborator queries recvTransaction makes (the tx
layer checkValid call and the source account balance), modelled as fields
since the tx layer is outside the provided source. -/
structure TransactionFrame where
  fullHash : Nat
  sourceID : Nat
  checkValidResult : Bool
  sourceAccountBalance : Nat
deriving DecidableEq, Repr

/-- mReceivedTransactions: the four generational buckets (constructed with
size 4 in Herder.cpp line 39). -/
structure ReceivedTransactions where
  bucket0 : List TransactionFrame
  bucket1 : List TransactionFrame
  bucket2 : List TransactionFrame
  bucket3 : List TransactionFrame
deriving DecidableEq, Repr

/-- The buckets in iteration order, as the source range-for visits them. -/
def ReceivedTransactions.buckets (p : ReceivedTransactions) :
    List (List TransactionFrame) :=
  [p.bucket0, p.bucket1, p.bucket2, p.bucket3]

/-- The duplicate scan of Herder::recvTransaction: some bucket holds a
transaction with this full hash. -/
def containsFullHash (txID : Nat) (p : ReceivedTransactions) : Bool :=
  p.buckets.any (fun list => list.any (fun oldTX => oldTX.fullHash == txID))

/-- The numOthers count of Herder::recvTransaction: transactions across all
buckets with the given source account. -/
def countSameSource (sourceID : Nat) (p : ReceivedTransactions) : Nat :=
  (p.buckets.map
    (fun list => (list.filter (fun oldTX => oldTX.sourceID == sourceID)).length)).sum

/-- Herder::recvTransaction (Herder.cpp lines 606 to 645): duplicate check,
checkValid, balance headroom check, then append to bucket 0. Returns the
boolean result together with the pool afterwards. -/
def recvTransaction (txFee : Nat) (p : ReceivedTransactions)
    (tx : TransactionFrame) : Bool × ReceivedTransactions :=
  if containsFullHash tx.fullHash p then (false, p)
  else if tx.checkValidResult = false then (false, p)
  else if tx.sourceAccountBalance < (countSameSource tx.sourceID p + 1) * txFee then
    (false, p)
  else
    (true, { p with bucket0 := p.bucket0 ++ [tx] })

/-- Erase the first element with the given full hash from one bucket,
returning none when the bucket has no such element. -/
def eraseFirstHash (txID : Nat) : List TransactionFrame →
    Option (List TransactionFrame)
  | [] => none
  | t :: ts =>
    if t.fullHash = txID then some ts
    else Option.map (fun rest => t :: rest) (eraseFirstHash txID ts)

/-- Herder::removeReceivedTx (Herder.cpp lines 735 to 754): scan the buckets
in order and erase the first matching entry, then stop. -/
def removeReceivedTx (p : ReceivedTransactions) (dropTx : TransactionFrame) :
    ReceivedTransactions :=
  match eraseFirstHash dropTx.fullHash p.bucket0 with
  | some b => { p with bucket0 := b }
  | none =>
    match eraseFirstHash dropTx.fullHash p.bucket1 with
    | some b => { p with bucket1 := b }
    | none =>
      match eraseFirstHash dropTx.fullHash p.bucket2 with
      | some b => { p with bucket2 := b }
      | none =>
        match eraseFirstHash dropTx.fullHash p.bucket3 with
        | some b => { p with bucket3 := b }
        | none => p

/-- The bucket rotation loop at the end of Herder::valueExternalized
(Herder.cpp lines 454 to 461): for n from 3 down to 1, append bucket n-1 to
bucket n and clear bucket n-1. The largest bucket is never moved out. -/
def rotateBuckets (p : ReceivedTransactions) : ReceivedTransactions :=
  let p3 := { p with bucket3 := p.bucket3 ++ p.bucket2, bucket2 := [] }
  let p2 := { p3 with bucket2 := p3.bucket2 ++ p3.bucket1, bucket1 := [] }
  { p2 with bucket1 := p2.bucket1 ++ p2.bucket0, bucket0 := [] }

/-- The effect of Herder::valueExternalized on the transaction pool:
which transactions are rebroadcast to the overlay and the pool afterwards. -/
structure ExternalizePoolEffect where
  rebroadcast : List TransactionFrame
  poolAfter : ReceivedTransactions
deriving DecidableEq, Repr

/-- The pool portion of Herder::valueExternalized in the resolvable-txset
case (Herder.cpp lines 422 to 461): remove every externalized transaction,
rebroadcast the contents of mReceivedTransactions[1], then rotate. -/
def valueExternalizedPool (externalizedTxs : List TransactionFrame)
    (p : ReceivedTransactions) : ExternalizePoolEffect :=
  let afterRemoval := externalizedTxs.foldl removeReceivedTx p
  { rebroadcast := afterRemoval.bucket1
    poolAfter := rotateBuckets afterRemoval }

/-- The cumulative timeout sum written in the spec (sections 4.5 and 8):
specCumulativeTimeout maxT n = sum over k from 0 to n-1 of
min(MAX_FBA_TIMEOUT_SECONDS, 2^k). -/
def specCumulativeTimeout (maxFbaTimeout : Nat) : Nat → Nat
  | 0 => 0
  | n + 1 => specCumulativeTimeout maxFbaTimeout n + min maxFbaTimeout (2 ^ n)

/-- The partial timeout sum starting at exponent i with the given number of
terms; helper for relating the validateBallot loop to the spec formula. -/
def sumFrom (maxFbaTimeout : Nat) : Nat → Nat → Nat
  | _, 0 => 0
  | i, fuel + 1 => min maxFbaTimeout (2 ^ i) + sumFrom maxFbaTimeout (i + 1) fuel

theorem isKing_foldl_false (H : HashFn) (s c signer : Nat) (l : List Nat) :
    List.foldl
      (fun isKing vID => if H s c signer < H s c vID then false else isKing)
      false l = false := by
  induction l with
  | nil => rfl
  | cons a t ih =>
    simp only [List.foldl]
    rw [ite_self]
    exact ih

theorem sumTimeoutsGo_complete (maxT nowSlip lastTrig : Nat) :
    ∀ fuel i sum : Nat,
      lastTrig + sumTimeoutsGo maxT nowSlip lastTrig fuel i sum ≤ nowSlip →
      lastTrig + sum + sumFrom maxT i fuel ≤ nowSlip := by
  intro fuel
  induction fuel with
  | zero =>
    intro i sum h
    simpa [sumTimeoutsGo, sumFrom] using h
  | succ f ih =>
    intro i sum h
    by_cases hc : lastTrig + sum ≤ nowSlip
    · rw [sumTimeoutsGo, if_pos hc] at h
      have hrec := ih (i + 1) (sum + min maxT (2 ^ i)) h
      simp only [sumFrom] at *
      omega
    · rw [sumTimeoutsGo, if_neg hc] at h
      omega

theorem sumFrom_succ (maxT : Nat) :
    ∀ n i : Nat, sumFrom maxT i (n + 1) = sumFrom maxT i n + min maxT (2 ^ (i + n)) := by
  intro n
  induction n with
  | zero =>
    intro i
    simp [sumFrom]
  | succ m ih =>
    intro i
    have hstep : sumFrom maxT i (m + 2) =
        min maxT (2 ^ i) + sumFrom maxT (i + 1) (m + 1) := rfl
    have hexp : i + 1 + m = i + (m + 1) := by omega
    rw [hstep, ih (i + 1), hexp]
    have hstep2 : sumFrom maxT i (m + 1) =
        min maxT (2 ^ i) + sumFrom maxT (i + 1) m := rfl
    rw [hstep2, Nat.add_assoc]

theorem specCumulativeTimeout_eq_sumFrom (maxT : Nat) :
    ∀ n : Nat, specCumulativeTimeout maxT n = sumFrom maxT 0 n := by
  intro n
  induction n with
  | zero => rfl
  | succ m ih =>
    rw [specCumulativeTimeout, sumFrom_succ maxT m 0, ih, Nat.zero_add]

/-- C1: the claim says the king is the hash-minimizing node. It is not: with
the ranking hash returning the node id itself, slot 1, counter 1, signer 0
and quorum validators [1], the signer hash 0 is minimal among the quorum yet
the validateBallot loop classifies the ballot as not king. -/
theorem C1_king_minimizer_counterexample :
    isKingCalc (fun _ _ nodeID => nodeID) 1 1 0 [1] = false ∧
    ∀ v ∈ ([1] : List Nat),
      (fun (_ _ nodeID : Nat) => nodeID) 1 1 0 ≤
        (fun (_ _ nodeID : Nat) => nodeID) 1 1 v := by
  decide

/-- C1 (amended): in validateBallot the ballot is classified as king exactly
when for every validator v in the local quorum set
H(slotIndex, counter, v) <= H(slotIndex, counter, signer): the king is the
hash-MAXIMIZING node, matching the source comment that a king ballot must be
higher than any potential ballot from the quorum set. -/
theorem C1_isKing_iff_hash_maximal (H : HashFn) (slotIndex counter signer : Nat)
    (validators : List Nat) :
    isKingCalc H slotIndex counter signer validators = true ↔
      ∀ v ∈ validators, H slotIndex counter v ≤ H slotIndex counter signer := by
  induction validators with
  | nil => simp [isKingCalc]
  | cons a t ih =>
    by_cases h : H slotIndex counter signer < H slotIndex counter a
    · have hstep : isKingCalc H slotIndex counter signer (a :: t) = false := by
        simp only [isKingCalc, List.foldl, if_pos h]
        exact isKing_foldl_false H slotIndex counter signer t
      rw [hstep]
      constructor
      · intro hfalse
        simp at hfalse
      · intro hall
        exact absurd (hall a (List.mem_cons_self a t)) (Nat.not_le.mpr h)
    · have hstep : isKingCalc H slotIndex counter signer (a :: t) =
          isKingCalc H slotIndex counter signer t := by
        simp only [isKingCalc, List.foldl, if_neg h]
      rw [hstep, ih]
      constructor
      · intro hall v hv
        rcases List.mem_cons.mp hv with rfl | hv2
        · exact Nat.le_of_not_lt h
        · exact hall v hv2
      · intro hall v hv
        exact hall v (List.mem_cons_of_mem a hv)

/-- C2: evaluation of compareValues at the failing input. Two verified values
signed by the same node 7 (so the per-signer hashes agree) with the second
value lexicographically below the first: the spec trichotomy requires +1, but
the source returns -1 because both value-comparison branches return -1. -/
theorem C2_compare_typo_eval :
    valueLt (⟨0, 3, 10⟩ : StellarBallotValue) ⟨0, 5, 10⟩ = true ∧
    compareValues (fun _ _ nodeID => nodeID) 1 1
      (some ⟨⟨0, 5, 10⟩, 7, 0⟩) (some ⟨⟨0, 3, 10⟩, 7, 0⟩) = some (-1) := by
  decide

/-- C3: the claim says validateBallot rejects a ballot whose signature fails
verification. It does not: under a signature scheme rejecting everything,
this concrete ballot fails verification yet validateBallot answers cb(true),
because validateBallot never calls verifyStellarBallot. -/
theorem C3_bad_signature_accepted :
    verifyStellarBallot (fun _ _ _ => false) ⟨⟨0, 100, 10⟩, 5, 0⟩ = false ∧
    validateBallot (fun _ _ nodeID => nodeID)
      ⟨100, 100, 30, 1800, 10, false, 1, [5]⟩ 1 7
      ⟨0, some ⟨⟨0, 100, 10⟩, 5, 0⟩⟩ = BallotValidationOutcome.cbTrue := by
  decide

/-- C3 (amended): validateBallot invokes cb(false) when the opaque value
fails to decode, but performs no signature verification: its outcome is
unchanged under any replacement of the signature field. -/
theorem C3_validateBallot_ignores_signature (H : HashFn) (env : HerderEnv)
    (slotIndex nodeID counter : Nat) (b : StellarBallot) (sig2 : Nat) :
    validateBallot H env slotIndex nodeID ⟨counter, some b⟩ =
      validateBallot H env slotIndex nodeID
        ⟨counter, some ⟨b.value, b.nodeID, sig2⟩⟩ ∧
    validateBallot H env slotIndex nodeID ⟨counter, none⟩ =
      BallotValidationOutcome.cbFalse := by
  cases b
  exact ⟨rfl, rfl⟩

/-- C4: the claim says a future envelope within the validity bracket is
stashed and NOT forwarded to FBA at reception time. At lastClosedLedger 5,
bracket 5, slotIndex 7 while fully synced, the source stashes the envelope
and still falls through to receiveEnvelope: both flags are true. -/
theorem C4_future_envelope_forwarded :
    recvFBAEnvelope 0 5 5 7 =
      ⟨true, true⟩ ∧ (⟨true, true⟩ : RecvEnvelopeResult).forwardedToFBA = true := by
  decide

/-- C4 (amended): when fully synced, an envelope with
lastClosedLedger.ledgerSeq + 1 < slotIndex <= ledgerSeq + bracket is stashed
in futureEnvelopes AND forwarded to FBA receiveEnvelope at reception time. -/
theorem C4_future_envelope_stashed_and_forwarded (lclSeq bracket slot : Nat)
    (hfuture : lclSeq + 1 < slot) (hbracket : slot ≤ lclSeq + bracket) :
    recvFBAEnvelope 0 lclSeq bracket slot = ⟨true, true⟩ := by
  have hrange : ¬(lclSeq + bracket < slot ∨
      slot < (if lclSeq < bracket then 0 else lclSeq - bracket)) := by
    push_neg
    constructor
    · omega
    · split <;> omega
  unfold recvFBAEnvelope
  rw [if_pos rfl, if_neg hrange, if_pos hfuture]

/-- C4 witness: the amended statement at the concrete instance of the spec
scenario (ledgerSeq 5, bracket 5, slotIndex 7). -/
theorem C4_future_envelope_witness :
    recvFBAEnvelope 0 5 5 7 = ⟨true, true⟩ :=
  C4_future_envelope_stashed_and_forwarded 5 5 7 (by decide) (by decide)

/-- C5: the claim says a cancelled deferred-accept timer handler does not
invoke cb. It does: on operation_aborted the handler still invokes cb with
true, because the source lambda ignores the error code. -/
theorem C5_aborted_handler_fires :
    ballotValidationTimerHandler AsioErrorCode.operationAborted = some true ∧
    ballotValidationTimerHandler AsioErrorCode.operationAborted ≠ none := by
  decide

/-- C5 (amended): the deferred ballot-acceptance timer handler invokes
cb(true) for every completion status, cancellation included; erasing the
timers (v-blocking rush or ledgerClosed) fires the callbacks rather than
suppressing them. -/
theorem C5_handler_fires_unconditionally (errorCode : AsioErrorCode) :
    ballotValidationTimerHandler errorCode = some true := rfl

/-- C6: the claim says the rebroadcast transactions are the oldest bucket
(index 3). They are bucket 1: with bucket1 = [tx 1] and bucket3 = [tx 3] and
nothing externalized, the rebroadcast list is exactly bucket 1 and differs
from the oldest bucket. -/
theorem C6_rebroadcast_not_oldest :
    (valueExternalizedPool []
      ⟨[], [⟨1, 0, true, 0⟩], [], [⟨3, 0, true, 0⟩]⟩).rebroadcast =
        [⟨1, 0, true, 0⟩] ∧
    ([⟨1, 0, true, 0⟩] : List TransactionFrame) ≠ [⟨3, 0, true, 0⟩] := by
  decide

/-- C6 (amended): during valueExternalized with a resolvable txset, the
transactions rebroadcast to the overlay are exactly the contents of bucket 1
after removal of the externalized transactions, and the rebroadcast happens
before the rotation: after rotation that same content sits in bucket 2. -/
theorem C6_rebroadcast_bucket1_prerotation
    (externalizedTxs : List TransactionFrame) (p : ReceivedTransactions) :
    (valueExternalizedPool externalizedTxs p).rebroadcast =
      (externalizedTxs.foldl removeReceivedTx p).bucket1 ∧
    (valueExternalizedPool externalizedTxs p).poolAfter.bucket2 =
      (valueExternalizedPool externalizedTxs p).rebroadcast :=
  ⟨rfl, rfl⟩

/-- C7: the claim says after rotation each bucket n > 0 holds exactly the
pre-rotation bucket n-1 and the oldest content is discarded. False at n = 3:
with bucket2 = [tx 2] and bucket3 = [tx 3], bucket 3 afterwards holds
[tx 3, tx 2], not [tx 2], and tx 3 is not discarded. -/
theorem C7_oldest_bucket_not_discarded :
    (valueExternalizedPool []
      ⟨[], [], [⟨2, 0, true, 0⟩], [⟨3, 0, true, 0⟩]⟩).poolAfter.bucket3 =
        [⟨3, 0, true, 0⟩, ⟨2, 0, true, 0⟩] ∧
    ([⟨3, 0, true, 0⟩, ⟨2, 0, true, 0⟩] : List TransactionFrame) ≠
      [⟨2, 0, true, 0⟩] := by
  decide

/-- C7 (amended): after the rotation inside valueExternalized, bucket 0 is
empty, bucket 1 holds the pre-rotation bucket 0, bucket 2 holds the
pre-rotation bucket 1, and bucket 3 holds its own pre-rotation content with
the pre-rotation bucket 2 appended; nothing is discarded. -/
theorem C7_rotation_closed_form (externalizedTxs : List TransactionFrame)
    (p : ReceivedTransactions) :
    (valueExternalizedPool externalizedTxs p).poolAfter =
      ⟨[], (externalizedTxs.foldl removeReceivedTx p).bucket0,
        (externalizedTxs.foldl removeReceivedTx p).bucket1,
        (externalizedTxs.foldl removeReceivedTx p).bucket3 ++
          (externalizedTxs.foldl removeReceivedTx p).bucket2⟩ :=
  rfl

/-- C8: whenever the counter-growth check of validateBallot passes for a
ballot with counter c >= 1, the cumulative-timeout inequality of the spec
holds: now + MAX_TIME_SLIP_SECONDS is at least lastTrigger plus the sum over
k from 0 to c-2 of min(MAX_FBA_TIMEOUT_SECONDS, 2^k); equivalently some
i < c satisfies the spec inequality. -/
theorem C8_counter_growth_bound (maxFbaTimeout slip timeNow lastTrigger counter : Nat)
    (hc : 1 ≤ counter)
    (hpass : counterGrowthPasses maxFbaTimeout (timeNow + slip) lastTrigger
      counter = true) :
    lastTrigger + specCumulativeTimeout maxFbaTimeout (counter - 1) ≤
      timeNow + slip ∧
    ∃ i < counter,
      lastTrigger + specCumulativeTimeout maxFbaTimeout i ≤ timeNow + slip := by
  have hle : lastTrigger +
      sumTimeouts maxFbaTimeout (timeNow + slip) lastTrigger counter ≤
      timeNow + slip := by
    simp only [counterGrowthPasses, Bool.not_eq_true', decide_eq_false_iff_not,
      Nat.not_lt] at hpass
    exact hpass
  have h1 := sumTimeoutsGo_complete maxFbaTimeout (timeNow + slip) lastTrigger
    counter 0 0 hle
  rw [← specCumulativeTimeout_eq_sumFrom] at h1
  obtain ⟨m, rfl⟩ : ∃ m, counter = m + 1 := ⟨counter - 1, by omega⟩
  have hm : m + 1 - 1 = m := by omega
  have hstep : specCumulativeTimeout maxFbaTimeout (m + 1) =
      specCumulativeTimeout maxFbaTimeout m + min maxFbaTimeout (2 ^ m) := rfl
  have hpow : 0 < 2 ^ m := by positivity
  rw [hm]
  constructor
  · omega
  · exact ⟨m, Nat.lt_succ_self m, by omega⟩

/-- C8 witness: the bound at maxFbaTimeout 30, slip 10, now 0, lastTrigger 0
and counter 2, where the counter-growth check passes concretely. -/
theorem C8_counter_growth_witness :
    (1 ≤ 2) ∧
    counterGrowthPasses 30 (0 + 10) 0 2 = true ∧
    (0 + specCumulativeTimeout 30 (2 - 1) ≤ 0 + 10 ∧
      ∃ i < 2, 0 + specCumulativeTimeout 30 i ≤ 0 + 10) :=
  ⟨by decide, by decide, C8_counter_growth_bound 30 10 0 0 2 (by decide) (by decide)⟩

/-- C9: evaluation of the ledgerClosed wait-counter update at the failing
input. With the counter at 3, the source leaves it at 3 when the application
IS in SYNCED_STATE and decrements to 2 when it is NOT, the exact opposite of
the claim, the spec, and the source comment directly above the condition. -/
theorem C9_wait_counter_eval :
    ledgerClosedWaitCounter 3 true = 3 ∧ ledgerClosedWaitCounter 3 false = 2 := by
  decide

/-- C10: recvTransaction is atomic on failure: when it returns false the pool
is untouched, and when it returns true the only change is that the
transaction is appended to bucket 0. -/
theorem C10_recvTransaction_atomic (txFee : Nat) (p : ReceivedTransactions)
    (tx : TransactionFrame) :
    (recvTransaction txFee p tx).2 =
      if (recvTransaction txFee p tx).1 = true then
        { p with bucket0 := p.bucket0 ++ [tx] }
      else p := by
  unfold recvTransaction
  split
  · rfl
  · split
    · rfl
    · split
      · rfl
      · rfl

end StellarHerder
